import Mathlib

set_option maxRecDepth 100000

/-!
Verification development for the trading-signal engine of this repository.

The source has two engines:
* `technical_analyzer.py` (`MurphyTechnicalAnalyzer`) — the short-horizon
  (crypto-oriented) engine: indicator-row fusion with evidence counting,
  pattern heuristics, risk levels from rolling support/resistance.
* `trading_bot.py` (`IndonesianStockBot`) — the long-horizon (equity) engine:
  SMA-crossover style masks with SELL/STRONG_SELL severity, an in-repo RSI,
  and a signal validator / strength classifier, with constants from
  `config.py`.

Prices and indicator values are modelled as exact rationals (`ℚ`).  Columns
produced by the external `ta`/`pandas` libraries (SMA, EMA, MACD, RSI,
Bollinger bands, volume baseline) are *inputs* of the engine here — the claims
under scrutiny are about the repository's own fusion/risk/validation logic,
which consumes those columns; columns the repository computes itself with an
explicit formula (rolling support/resistance, the bot's RSI averages) are
computed from the bars.  Pandas NaN-semantics are modelled with `Option ℚ`
(every comparison against a missing value is false) where a claim depends on
them, and special IEEE values arising in the bot's RSI division are modelled
by an explicit extended-value type.
-/

namespace Murphy

/-- One row of the indicator-augmented frame handed to
`MurphyTechnicalAnalyzer.generate_signals` (`technical_analyzer.py`).
Only the columns that `generate_signals` actually reads are modelled; for a
series of length ≥ 50 (the only case in which they are read) all of them are
defined, hence plain `ℚ` fields.  `ts` is the row's index timestamp. -/
structure Row where
  ts : ℚ
  high : ℚ
  low : ℚ
  close : ℚ
  volume : ℚ
  sma_20 : ℚ
  sma_50 : ℚ
  ema_12 : ℚ
  ema_26 : ℚ
  macd : ℚ
  macd_signal : ℚ
  rsi : ℚ
  bb_upper : ℚ
  bb_lower : ℚ
  bb_width : ℚ
  volume_sma : ℚ
  deriving DecidableEq, Inhabited

/-- Signal directions produced by either engine. -/
inductive Direction
  | BUY
  | SELL
  | STRONG_SELL
  | HOLD
  | NO_DATA
  deriving DecidableEq, Inhabited

/-- Strength labels produced by either engine. -/
inductive Strength
  | NONE
  | WEAK
  | MEDIUM
  | MODERATE
  | STRONG
  | VERY_STRONG
  deriving DecidableEq, Inhabited

/-- The signal record built by `generate_signals` / `empty_signal`
(`technical_analyzer.py` lines 148–161, 279–294).  The free-form
`indicators` / `patterns` / `analysis` sub-dictionaries are deterministic
functions of the same frame and are not needed by any claim, so they are not
carried in the record. -/
structure Signal where
  ts : ℚ
  price : ℚ
  signal : Direction
  strength : Strength
  confidence : ℕ
  entry_price : ℚ
  stop_loss : ℚ
  take_profit : ℚ
  risk_reward : ℚ
  deriving DecidableEq, Inhabited

/-- Python's `round(x, 2)` rounds half to even on the scaled value.
This is the integer-level ties-to-even rounding. -/
def round_half_even (x : ℚ) : ℤ :=
  let f : ℤ := ⌊x⌋
  if x - f < 1/2 then f
  else if 1/2 < x - f then f + 1
  else if Even f then f else f + 1

/-- `round(x, 2)` of the source, over exact rationals. -/
def round2 (x : ℚ) : ℚ :=
  (round_half_even (x * 100) : ℚ) / 100

/-- `df.iloc[-1]`: the last row (head of the reversed frame). -/
def latest (df : List Row) : Row :=
  df.reverse.headD default

/-- `df.iloc[-2]`: the second-to-last row. -/
def prev_row (df : List Row) : Row :=
  (df.reverse.drop 1).headD default

/-- Minimum of a nonempty list of rationals (0 on the empty list, which the
engine never queries). -/
def roll_min : List ℚ → ℚ
  | [] => 0
  | x :: xs => xs.foldl min x

/-- Maximum of a nonempty list of rationals. -/
def roll_max : List ℚ → ℚ
  | [] => 0
  | x :: xs => xs.foldl max x

/-- `df['support'] = df['low'].rolling(window=20).min()` at the last index:
the minimum of the last 20 lows (current bar included),
`technical_analyzer.py` line 57. -/
def support (df : List Row) : ℚ :=
  roll_min ((df.reverse.take 20).map Row.low)

/-- `df['resistance'] = df['high'].rolling(window=20).max()` at the last
index, `technical_analyzer.py` line 58. -/
def resistance (df : List Row) : ℚ :=
  roll_max ((df.reverse.take 20).map Row.high)

/-- The string tags appended by the rule families of `generate_signals`. -/
inductive Tag
  | bullishMaCross
  | bearishMaCross
  | bullishTrend
  | bearishTrend
  | bullishMacd
  | bearishMacd
  | oversold
  | overbought
  | neutral
  | bbBreakoutUp
  | bbBreakoutDown
  | bbSqueeze
  deriving DecidableEq

/-- The literal string of each tag as it appears in the source. -/
def tag_text : Tag → String
  | .bullishMaCross => "BULLISH_MA_CROSS"
  | .bearishMaCross => "BEARISH_MA_CROSS"
  | .bullishTrend => "BULLISH_TREND"
  | .bearishTrend => "BEARISH_TREND"
  | .bullishMacd => "BULLISH_MACD"
  | .bearishMacd => "BEARISH_MACD"
  | .oversold => "OVERSOLD"
  | .overbought => "OVERBOUGHT"
  | .neutral => "NEUTRAL"
  | .bbBreakoutUp => "BB_BREAKOUT_UP"
  | .bbBreakoutDown => "BB_BREAKOUT_DOWN"
  | .bbSqueeze => "BB_SQUEEZE"

/-- Substring test on character lists, used to model Python's
`needle in s` on strings. -/
def has_substr (needle : List Char) : List Char → Bool
  | [] => needle.isEmpty
  | c :: rest => needle.isPrefixOf (c :: rest) || has_substr needle rest

/-- `'BULLISH' in s or 'OVERSOLD' in s` (`technical_analyzer.py` line 219). -/
def counts_bullish (t : Tag) : Bool :=
  has_substr "BULLISH".toList (tag_text t).toList ||
    has_substr "OVERSOLD".toList (tag_text t).toList

/-- `'BEARISH' in s or 'OVERBOUGHT' in s` (`technical_analyzer.py` line 220). -/
def counts_bearish (t : Tag) : Bool :=
  has_substr "BEARISH".toList (tag_text t).toList ||
    has_substr "OVERBOUGHT".toList (tag_text t).toList

/-- Trend rule family (`technical_analyzer.py` lines 164–176): an EMA
crossover group and a price-vs-SMA group, each an independent if/elif. -/
def trend_signals (l p : Row) : List Tag :=
  (if l.ema_12 > l.ema_26 ∧ p.ema_12 ≤ p.ema_26 then [Tag.bullishMaCross]
   else if l.ema_12 < l.ema_26 ∧ p.ema_12 ≥ p.ema_26 then [Tag.bearishMaCross]
   else []) ++
  (if l.close > l.sma_20 ∧ l.sma_20 > l.sma_50 then [Tag.bullishTrend]
   else if l.close < l.sma_20 ∧ l.sma_20 < l.sma_50 then [Tag.bearishTrend]
   else [])

/-- MACD rule family (`technical_analyzer.py` lines 179–183). -/
def macd_signals (l p : Row) : List Tag :=
  if l.macd > l.macd_signal ∧ p.macd ≤ p.macd_signal then [Tag.bullishMacd]
  else if l.macd < l.macd_signal ∧ p.macd ≥ p.macd_signal then [Tag.bearishMacd]
  else []

/-- RSI rule family (`technical_analyzer.py` lines 186–192). -/
def rsi_signals (l : Row) : List Tag :=
  if l.rsi < 30 then [Tag.oversold]
  else if l.rsi > 70 then [Tag.overbought]
  else if 40 ≤ l.rsi ∧ l.rsi ≤ 60 then [Tag.neutral]
  else []

/-- Bollinger-band rule family (`technical_analyzer.py` lines 195–201).
Its tags contain none of the counted substrings, but the list participates in
the counted concatenation exactly as in the source. -/
def bb_signals (l : Row) : List Tag :=
  if l.close > l.bb_upper then [Tag.bbBreakoutUp]
  else if l.close < l.bb_lower then [Tag.bbBreakoutDown]
  else if l.bb_width < 10 then [Tag.bbSqueeze]
  else []

/-- `bullish_count` of `generate_signals` line 219: tags among
trend+macd+rsi+bb whose text contains BULLISH or OVERSOLD.  (The volume and
support/resistance tag lists are not part of the counted concatenation in the
source.) -/
def bullish_count (l p : Row) : ℕ :=
  ((trend_signals l p ++ macd_signals l p ++ rsi_signals l ++ bb_signals l).countP
    counts_bullish)

/-- `bearish_count` of `generate_signals` line 220. -/
def bearish_count (l p : Row) : ℕ :=
  ((trend_signals l p ++ macd_signals l p ++ rsi_signals l ++ bb_signals l).countP
    counts_bearish)

/-- The direction/confidence decision of `generate_signals` lines 222–231. -/
def fused (l p : Row) : Direction × ℕ :=
  let bc := bullish_count l p
  let sc := bearish_count l p
  if sc < bc ∧ 2 ≤ bc then (Direction.BUY, min (bc * 20) 100)
  else if bc < sc ∧ 2 ≤ sc then (Direction.SELL, min (sc * 20) 100)
  else (Direction.HOLD, 50)

/-- Entry / stop-loss / take-profit of `generate_signals` lines 241–250
(initialised to 0 and only set for BUY/SELL). -/
def risk_levels (df : List Row) (d : Direction) : ℚ × ℚ × ℚ :=
  let c := (latest df).close
  match d with
  | Direction.BUY =>
      (c, max (support df) (c * (95/100)), min (resistance df) (c * (110/100)))
  | Direction.SELL =>
      (c, min (resistance df) (c * (105/100)), max (support df) (c * (90/100)))
  | _ => (0, 0, 0)

/-- Risk/reward of `generate_signals` lines 251–255: left 0 unless the stop
is nonzero; `round(reward/risk, 2) if risk > 0 else 0`. -/
def risk_reward_of (entry stop tp : ℚ) : ℚ :=
  if stop ≠ 0 then
    (if 0 < |entry - stop| then round2 (|tp - entry| / |entry - stop|) else 0)
  else 0

/-- Strength classification of `generate_signals` lines 233–239. -/
def strength_of (conf : ℕ) : Strength :=
  if 80 ≤ conf then Strength.STRONG
  else if 60 ≤ conf then Strength.MEDIUM
  else Strength.WEAK

/-- The body of `generate_signals` for a frame of length ≥ 50. -/
def build_signal (df : List Row) : Signal :=
  let l := latest df
  let p := prev_row df
  let dc := fused l p
  let lv := risk_levels df dc.1
  { ts := l.ts
    price := l.close
    signal := dc.1
    strength := strength_of dc.2
    confidence := dc.2
    entry_price := lv.1
    stop_loss := lv.2.1
    take_profit := lv.2.2
    risk_reward := risk_reward_of lv.1 lv.2.1 lv.2.2 }

/-- `MurphyTechnicalAnalyzer.empty_signal` (`technical_analyzer.py`
lines 279–294).  Its `timestamp` field is `datetime.now()`, the wall-clock
time of the call, which we pass in as `now`. -/
def empty_signal (now : ℚ) : Signal :=
  { ts := now
    price := 0
    signal := Direction.NO_DATA
    strength := Strength.NONE
    confidence := 0
    entry_price := 0
    stop_loss := 0
    take_profit := 0
    risk_reward := 0 }

/-- `MurphyTechnicalAnalyzer.generate_signals` (`technical_analyzer.py`
lines 140–277): `if df.empty or len(df) < 50: return self.empty_signal()`,
otherwise the fusion body.  `now` is the wall clock at call time (read only
on the empty path). -/
def generate_signals (df : List Row) (now : ℚ) : Signal :=
  if df.length < 50 then empty_signal now else build_signal df

end Murphy

namespace Bot

/-! The long-horizon engine (`trading_bot.py`), with constants from
`config.py`. -/

def SMA_SHORT_PERIOD : ℕ := 20

def SMA_LONG_PERIOD : ℕ := 50

def MIN_VOLUME_THRESHOLD : ℚ := 1000000

def MIN_PRICE_CHANGE : ℚ := 3/100

def STOP_LOSS_PERCENTAGE : ℚ := 15/100

def TAKE_PROFIT_PERCENTAGE : ℚ := 25/100

def RSI_OVERBOUGHT_THRESHOLD : ℚ := 80

def RSI_OVERSOLD_THRESHOLD : ℚ := 20

def RSI_PERIOD : ℕ := 21

def HIGH_VOLUME_SELL_MULTIPLIER : ℚ := 3

/-! ### The in-repo RSI (`IndonesianStockBot.calculate_rsi`, lines 155–162)

`rs = gain / loss; rsi = 100 - (100 / (1 + rs))` is evaluated by
pandas in IEEE floating point, where `g/0 = +inf` for `g > 0`, `0/0 = NaN`,
`1 + inf = inf`, `100 / inf = 0`, and NaN propagates.  All values reaching
the division are non-negative rolling means, and on the special paths the
arithmetic is exact, so the computation is modelled exactly by rationals
extended with `inf`, `ninf` and `nan`. -/

/-- Extended value: a finite rational, plus the IEEE special values that can
arise in the RSI formula. -/
inductive PFloat
  | fin (q : ℚ)
  | inf
  | ninf
  | nan
  deriving DecidableEq

/-- `gain / loss` for non-negative rolling means under IEEE semantics. -/
def rs_div (gain loss : ℚ) : PFloat :=
  if loss = 0 then (if gain = 0 then PFloat.nan else PFloat.inf)
  else PFloat.fin (gain / loss)

/-- `1 + rs`. -/
def one_plus : PFloat → PFloat
  | PFloat.fin q => PFloat.fin (1 + q)
  | PFloat.inf => PFloat.inf
  | PFloat.ninf => PFloat.ninf
  | PFloat.nan => PFloat.nan

/-- `100 / x` (the argument is ≥ 1 or `inf`/`nan` in this engine). -/
def hundred_div : PFloat → PFloat
  | PFloat.fin q => if q = 0 then PFloat.inf else PFloat.fin (100 / q)
  | PFloat.inf => PFloat.fin 0
  | PFloat.ninf => PFloat.fin 0
  | PFloat.nan => PFloat.nan

/-- `100 - x`. -/
def hundred_sub : PFloat → PFloat
  | PFloat.fin q => PFloat.fin (100 - q)
  | PFloat.inf => PFloat.ninf
  | PFloat.ninf => PFloat.inf
  | PFloat.nan => PFloat.nan

/-- The RSI formula of `calculate_rsi` applied to a rolling average gain and
average loss. -/
def rsiOf (gain loss : ℚ) : PFloat :=
  hundred_sub (hundred_div (one_plus (rs_div gain loss)))

/-- `data['Close'].diff()` without its leading NaN: consecutive
differences `close[i] − close[i−1]`. -/
def diff_list (closes : List ℚ) : List ℚ :=
  closes.tail.zipWith (fun a b => a - b) closes

/-- `delta.where(delta > 0, 0)`: the diff's leading NaN fails the `>` test
and is replaced by 0, so the gain series starts with a literal 0. -/
def gains : List ℚ → List ℚ
  | [] => []
  | c :: rest => 0 :: (diff_list (c :: rest)).map (fun d => if 0 < d then d else 0)

/-- `(-delta.where(delta < 0, 0))` with the same leading-0 convention. -/
def losses : List ℚ → List ℚ
  | [] => []
  | c :: rest => 0 :: (diff_list (c :: rest)).map (fun d => if d < 0 then -d else 0)

/-- `.rolling(window=p).mean()` at the last index: `none` (NaN) while the
window is not yet full. -/
def roll_mean_last (p : ℕ) (l : List ℚ) : Option ℚ :=
  if l.length < p then none else some ((l.reverse.take p).sum / p)

/-- The rolling average gain at the last index of the series. -/
def avg_gain (closes : List ℚ) : Option ℚ :=
  roll_mean_last RSI_PERIOD (gains closes)

/-- The rolling average loss at the last index of the series. -/
def avg_loss (closes : List ℚ) : Option ℚ :=
  roll_mean_last RSI_PERIOD (losses closes)

/-- `calculate_rsi` evaluated at the last bar: NaN while either rolling
window is unfilled, else the RSI formula on the two averages. -/
def rsi_last (closes : List ℚ) : PFloat :=
  match avg_gain closes, avg_loss closes with
  | some g, some l => rsiOf g l
  | _, _ => PFloat.nan

/-! ### Enhanced signal masks (`generate_enhanced_signals`, lines 187–274)

The masks compare pandas series values at one bar.  Derived columns (SMAs
and their shifts, RSI, volume ratio, percentage change, 10-bar rolling means)
are carried as `Option ℚ` inputs — `none` is a NaN, and every NaN comparison
is false, exactly as in pandas. -/

/-- NaN-aware `<`. -/
def olt (a b : Option ℚ) : Bool :=
  match a, b with
  | some x, some y => decide (x < y)
  | _, _ => false

/-- NaN-aware `≤`. -/
def ole (a b : Option ℚ) : Bool :=
  match a, b with
  | some x, some y => decide (x ≤ y)
  | _, _ => false

/-- NaN-aware `>`. -/
def ogt (a b : Option ℚ) : Bool :=
  olt b a

/-- NaN-aware `≥`. -/
def oge (a b : Option ℚ) : Bool :=
  ole b a

/-- The series values read by the mask logic at one bar: `Close` (raw, always
defined), and the derived columns with the shifts the masks use. -/
structure BotRow where
  close : ℚ
  close_s5 : Option ℚ
  sma_s : Option ℚ
  sma_l : Option ℚ
  sma_s1 : Option ℚ
  sma_l1 : Option ℚ
  sma_s2 : Option ℚ
  sma_l2 : Option ℚ
  rsi : Option ℚ
  rsi_s1 : Option ℚ
  rsi_s10 : Option ℚ
  vol_ratio : Option ℚ
  pct_change : Option ℚ
  m10 : Option ℚ
  m10_s10 : Option ℚ
  deriving DecidableEq, Inhabited

def buy_sma_cross (r : BotRow) : Bool :=
  ogt r.sma_s r.sma_l && ole r.sma_s1 r.sma_l1

def buy_rsi_ok (r : BotRow) : Bool :=
  olt r.rsi (some RSI_OVERBOUGHT_THRESHOLD)

def rsi_oversold_recovery (r : BotRow) : Bool :=
  ogt r.rsi (some RSI_OVERSOLD_THRESHOLD) && ole r.rsi_s1 (some RSI_OVERSOLD_THRESHOLD)

def strong_uptrend (r : BotRow) : Bool :=
  ogt r.sma_s r.sma_l && ogt (some r.close) r.sma_s &&
    ogt r.rsi (some 50) && olt r.rsi (some RSI_OVERBOUGHT_THRESHOLD)

def price_momentum (r : BotRow) : Bool :=
  ogt (some r.close) r.close_s5

/-- The full BUY mask (lines 208–219). -/
def buy_condition (r : BotRow) : Bool :=
  (buy_sma_cross r && buy_rsi_ok r) ||
    (rsi_oversold_recovery r && ogt r.sma_s r.sma_l) ||
    (strong_uptrend r && price_momentum r)

def sell_sma_cross (r : BotRow) : Bool :=
  olt r.sma_s r.sma_l && oge r.sma_s1 r.sma_l1

/-- Bearish crossover confirmed two bars running (line 224). -/
def sma_cross_confirmed (r : BotRow) : Bool :=
  sell_sma_cross r && oge r.sma_s2 r.sma_l2

/-- `rsi > RSI_OVERBOUGHT_THRESHOLD` (line 227). -/
def sell_rsi_overbought (r : BotRow) : Bool :=
  ogt r.rsi (some RSI_OVERBOUGHT_THRESHOLD)

/-- High volume sell-off (line 230). -/
def sell_high_volume (r : BotRow) : Bool :=
  ogt r.vol_ratio (some HIGH_VOLUME_SELL_MULTIPLIER) && olt r.pct_change (some (-5))

/-- Long-term bearish divergence (lines 233–235). -/
def sell_divergence (r : BotRow) : Bool :=
  ogt r.m10 r.m10_s10 && olt r.rsi r.rsi_s10 && ogt r.rsi (some 70)

/-- Confirmed crossover plus overbought (line 239). -/
def strong_sell_multiple (r : BotRow) : Bool :=
  sma_cross_confirmed r && sell_rsi_overbought r

/-- RSI above 85 with a volume spike (line 242). -/
def strong_sell_extreme (r : BotRow) : Bool :=
  ogt r.rsi (some 85) && ogt r.vol_ratio (some HIGH_VOLUME_SELL_MULTIPLIER)

/-- Drop worse than −10% with a volume spike (line 245). -/
def strong_sell_crash (r : BotRow) : Bool :=
  olt r.pct_change (some (-10)) && ogt r.vol_ratio (some HIGH_VOLUME_SELL_MULTIPLIER)

def strong_sell (r : BotRow) : Bool :=
  strong_sell_multiple r || strong_sell_extreme r || strong_sell_crash r

/-- Regular sells exclude any strong-sell bar (line 256). -/
def regular_sell (r : BotRow) : Bool :=
  (sma_cross_confirmed r || sell_rsi_overbought r || sell_high_volume r ||
      sell_divergence r) && !strong_sell r

/-- The final `Signal` column value at a bar after the `.loc` assignments of
lines 249–263: HOLD is the initial value, buys are written first, regular
sells overwrite, strong sells overwrite last. -/
def enhanced_signal (r : BotRow) : Murphy.Direction :=
  if strong_sell r then Murphy.Direction.STRONG_SELL
  else if regular_sell r then Murphy.Direction.SELL
  else if buy_condition r then Murphy.Direction.BUY
  else Murphy.Direction.HOLD

/-! ### Validator / strength classifier (`validate_signal`, lines 276–322) -/

/-- The values `validate_signal` reads from the frame: the latest bar's
close/volume, the previous close, the (possibly NaN) indicator columns, and
the `Signal` column value at the latest bar. -/
structure VRow where
  close : ℚ
  prev_close : ℚ
  volume : ℚ
  sma_short : Option ℚ
  sma_long : Option ℚ
  rsi : Option ℚ
  vol_ma : Option ℚ
  signal : Murphy.Direction
  deriving DecidableEq, Inhabited

/-- The fields of the `signal_info` dictionary that the claims are about. -/
structure SignalInfo where
  signal : Murphy.Direction
  price_change : ℚ
  stop_loss_price : ℚ
  take_profit_price : ℚ
  valid : Bool
  strength : Murphy.Strength
  deriving DecidableEq, Inhabited

/-- `IndonesianStockBot.validate_signal` (lines 276–322): the stop/take
levels are percentage offsets from the close for every direction; validity is
the volume gate plus defined SMAs; strength is the VERY_STRONG / STRONG /
MODERATE / WEAK chain with WEAK the initial value. -/
def validate_signal (r : VRow) : SignalInfo :=
  let price_change := Murphy.round2 ((r.close - r.prev_close) / r.prev_close * 100)
  let volume_valid := decide (MIN_VOLUME_THRESHOLD ≤ r.volume)
  let sma_valid := r.sma_short.isSome && r.sma_long.isSome
  let valid := volume_valid && sma_valid
  let price_change_significant := decide (MIN_PRICE_CHANGE * 100 ≤ |price_change|)
  { signal := r.signal
    price_change := price_change
    stop_loss_price := Murphy.round2 (r.close * (1 - STOP_LOSS_PERCENTAGE))
    take_profit_price := Murphy.round2 (r.close * (1 + TAKE_PROFIT_PERCENTAGE))
    valid := valid
    strength :=
      if r.signal = Murphy.Direction.STRONG_SELL then Murphy.Strength.VERY_STRONG
      else if valid && price_change_significant then Murphy.Strength.STRONG
      else if valid then Murphy.Strength.MODERATE
      else Murphy.Strength.WEAK }

end Bot

namespace Murphy

/-! ### Pattern detector (`detect_patterns`, `technical_analyzer.py`
lines 83–138) — the head-and-shoulders heuristic needed by the claims. -/

/-- Descending-by-value order used by `pandas.Series.nlargest`; stable
insertion keeps earlier indices first among ties (`keep='first'`). -/
def desc (a b : ℚ) : Prop := b ≤ a

instance : DecidableRel desc := fun a b => inferInstanceAs (Decidable (b ≤ a))

instance : IsTotal ℚ desc := ⟨fun a b => le_total b a⟩

instance : IsTrans ℚ desc := ⟨fun _ _ _ hab hbc => le_trans hbc hab⟩

/-- `recent_highs.nlargest(3)`: the three largest values, ordered by
descending value. -/
def nlargest3 (l : List ℚ) : List ℚ :=
  (l.insertionSort desc).take 3

/-- The classification tags used by the pattern flags. -/
inductive PatternFlag
  | NONE
  | BEARISH
  | BULLISH
  deriving DecidableEq, Inhabited

/-- `df['high'].tail(20)` in time order. -/
def recent_highs (df : List Row) : List ℚ :=
  (df.reverse.take 20).reverse.map Row.high

/-- The head-and-shoulders branch of `detect_patterns` (lines 93–102):
all flags are NONE below 50 bars; otherwise take the three largest of the
last 20 highs (`nlargest`, value-descending) as `peaks` and flag BEARISH when
`peaks.iloc[1] > peaks.iloc[0] and peaks.iloc[1] > peaks.iloc[2]`.  (The
`len(recent_highs) >= 3` / `len(peaks) == 3` guards are the fall-through of
the match.) -/
def head_shoulders (df : List Row) : PatternFlag :=
  if df.length < 50 then PatternFlag.NONE
  else
    match nlargest3 (recent_highs df) with
    | p0 :: p1 :: p2 :: _ =>
        if p1 > p0 ∧ p1 > p2 then PatternFlag.BEARISH else PatternFlag.NONE
    | _ => PatternFlag.NONE

/-- A signal with its timestamp field cleared, used to compare analysis
results up to the timestamp. -/
def strip_ts (s : Signal) : Signal := { s with ts := 0 }

end Murphy

/-! ### Concrete sample data used by witnesses and counterexamples -/

/-- A quiet bar: as the second-to-last row its EMA pair (1 ≤ 2) and MACD
pair (0 ≤ 0) arm the bullish crossovers. -/
def base_row : Murphy.Row :=
  { ts := 0, high := 90, low := 50, close := 95, volume := 1000,
    sma_20 := 94, sma_50 := 93, ema_12 := 1, ema_26 := 2,
    macd := 0, macd_signal := 0, rsi := 50,
    bb_upper := 200, bb_lower := 1, bb_width := 50, volume_sma := 1000 }

/-- A latest bar firing BULLISH_MA_CROSS, BULLISH_TREND and BULLISH_MACD
(three bullish tags, no bearish ones), whose close sits exactly at the
20-bar high (so the take-profit clamps to the entry). -/
def buy_row : Murphy.Row :=
  { ts := 49, high := 100, low := 80, close := 100, volume := 1000,
    sma_20 := 98, sma_50 := 96, ema_12 := 3, ema_26 := 2,
    macd := 1, macd_signal := 0, rsi := 50,
    bb_upper := 200, bb_lower := 1, bb_width := 50, volume_sma := 1000 }

/-- A 50-bar frame whose analysis is a BUY at the rolling resistance. -/
def dfBuy : List Murphy.Row := List.replicate 49 base_row ++ [buy_row]

/-- A bar of `c5df` carrying the given high. -/
def c5row (h : ℚ) : Murphy.Row := { base_row with high := h }

/-- A 50-bar frame whose last 20 highs form a textbook head-and-shoulders:
the three largest highs, in time order, are 10 (left shoulder), 12 (head),
11 (right shoulder) — the middle-by-time peak exceeds both neighbours. -/
def c5df : List Murphy.Row :=
  List.replicate 30 (c5row 1) ++
    (([1, 1, 1, 1, 1, 10, 1, 1, 1, 1, 12, 1, 1, 1, 1, 11, 1, 1, 1, 1] : List ℚ).map c5row)

/-- A bar hitting the crash condition of the long-horizon engine: a −12%
single-bar drop on 4× baseline volume, every other indicator NaN. -/
def c4row : Bot.BotRow :=
  { close := 100, close_s5 := none,
    sma_s := none, sma_l := none, sma_s1 := none, sma_l1 := none,
    sma_s2 := none, sma_l2 := none,
    rsi := none, rsi_s1 := none, rsi_s10 := none,
    vol_ratio := some 4, pct_change := some (-12),
    m10 := none, m10_s10 := none }

/-- A HOLD bar fed to the long-horizon validator. -/
def c7row : Bot.VRow :=
  { close := 100, prev_close := 100, volume := 2000000,
    sma_short := some 95, sma_long := some 90, rsi := some 50,
    vol_ma := some 1000, signal := Murphy.Direction.HOLD }

/-- An invalid STRONG_SELL bar (volume below the gate, long SMA undefined). -/
def c8row : Bot.VRow :=
  { close := 100, prev_close := 90, volume := 1000,
    sma_short := some 95, sma_long := none, rsi := none,
    vol_ma := none, signal := Murphy.Direction.STRONG_SELL }

/-- 22 strictly increasing closes: every delta is a gain, so the rolling
average loss is 0 and the average gain is 1. -/
def closes_up : List ℚ :=
  [0, 1, 2, 3, 4, 5, 6, 7, 8, 9, 10, 11,
   12, 13, 14, 15, 16, 17, 18, 19, 20, 21]

/-- 22 flat closes: both rolling averages are 0. -/
def closes_flat : List ℚ := List.replicate 22 5

/-! ## Helper lemmas -/

theorem foldl_min_le_init (l : List ℚ) : ∀ a : ℚ, l.foldl min a ≤ a := by
  induction l with
  | nil => intro a; simp
  | cons x xs ih =>
      intro a
      calc (x :: xs).foldl min a = xs.foldl min (min a x) := rfl
        _ ≤ min a x := ih (min a x)
        _ ≤ a := min_le_left a x

theorem le_foldl_max_init (l : List ℚ) : ∀ a : ℚ, a ≤ l.foldl max a := by
  induction l with
  | nil => intro a; simp
  | cons x xs ih =>
      intro a
      calc a ≤ max a x := le_max_left a x
        _ ≤ xs.foldl max (max a x) := ih (max a x)
        _ = (x :: xs).foldl max a := rfl

/-- With at least one bar, the rolling support is at most the latest low. -/
theorem support_le_latest_low (df : List Murphy.Row) (h : df ≠ []) :
    Murphy.support df ≤ (Murphy.latest df).low := by
  rcases hrev : df.reverse with _ | ⟨a, t⟩
  · exact absurd (List.reverse_eq_nil_iff.mp hrev) h
  · simp only [Murphy.support, Murphy.latest, hrev, List.take_cons, List.map_cons,
      List.headD_cons, Murphy.roll_min]
    exact foldl_min_le_init _ _

/-- With at least one bar, the latest high is at most the rolling
resistance. -/
theorem latest_high_le_resistance (df : List Murphy.Row) (h : df ≠ []) :
    (Murphy.latest df).high ≤ Murphy.resistance df := by
  rcases hrev : df.reverse with _ | ⟨a, t⟩
  · exact absurd (List.reverse_eq_nil_iff.mp hrev) h
  · simp only [Murphy.resistance, Murphy.latest, hrev, List.take_cons, List.map_cons,
      List.headD_cons, Murphy.roll_max]
    exact le_foldl_max_init _ _

/-- Ties-to-even rounding preserves non-negativity. -/
theorem round_half_even_nonneg {x : ℚ} (hx : 0 ≤ x) : 0 ≤ Murphy.round_half_even x := by
  have hf : (0 : ℤ) ≤ ⌊x⌋ := Int.le_floor.mpr (by exact_mod_cast hx)
  unfold Murphy.round_half_even
  simp only []
  split_ifs <;> omega

/-- `round2` preserves non-negativity. -/
theorem round2_nonneg {x : ℚ} (hx : 0 ≤ x) : 0 ≤ Murphy.round2 x := by
  unfold Murphy.round2
  have h : (0 : ℤ) ≤ Murphy.round_half_even (x * 100) :=
    round_half_even_nonneg (by positivity)
  positivity

/-- The risk/reward computation never returns a negative value. -/
theorem risk_reward_of_nonneg (e s t : ℚ) : 0 ≤ Murphy.risk_reward_of e s t := by
  unfold Murphy.risk_reward_of
  split_ifs with h1 h2
  · exact round2_nonneg (div_nonneg (abs_nonneg _) (abs_nonneg _))
  · exact le_refl 0
  · exact le_refl 0

/-- When the entry equals the stop, the risk/reward computation returns 0. -/
theorem risk_reward_of_entry_eq_stop (e s t : ℚ) (h : e = s) :
    Murphy.risk_reward_of e s t = 0 := by
  unfold Murphy.risk_reward_of
  subst h
  simp

/-- A NaN-aware strict comparison against a threshold can be relaxed to any
smaller threshold. -/
theorem ogt_thr_mono (a : Option ℚ) {c c' : ℚ} (h : Bot.ogt a (some c) = true)
    (hc : c' ≤ c) : Bot.ogt a (some c') = true := by
  cases a with
  | none => exact absurd h (by simp [Bot.ogt, Bot.olt])
  | some x =>
      simp only [Bot.ogt, Bot.olt, decide_eq_true_eq] at h ⊢
      exact lt_of_le_of_lt hc h

/-- A NaN-aware strict comparison below a threshold can be relaxed to any
larger threshold. -/
theorem olt_thr_mono (a : Option ℚ) {c c' : ℚ} (h : Bot.olt a (some c) = true)
    (hc : c ≤ c') : Bot.olt a (some c') = true := by
  cases a with
  | none => exact absurd h (by simp [Bot.olt])
  | some x =>
      simp only [Bot.olt, decide_eq_true_eq] at h ⊢
      exact lt_of_lt_of_le h hc

/-! ## Claim theorems -/

/-- Claim C2: for every bar series shorter than the long trend window
(50 bars), analysis returns a signal with direction NO_DATA, confidence 0,
and entry price, stop-loss, take-profit and risk/reward all equal to 0. -/
theorem c2_short_series_no_data (df : List Murphy.Row) (now : ℚ)
    (h : df.length < 50) :
    (Murphy.generate_signals df now).signal = Murphy.Direction.NO_DATA ∧
    (Murphy.generate_signals df now).confidence = 0 ∧
    (Murphy.generate_signals df now).entry_price = 0 ∧
    (Murphy.generate_signals df now).stop_loss = 0 ∧
    (Murphy.generate_signals df now).take_profit = 0 ∧
    (Murphy.generate_signals df now).risk_reward = 0 := by
  simp [Murphy.generate_signals, h, Murphy.empty_signal]

/-- Witness for C2 at the empty series. -/
theorem c2_witness :
    (Murphy.generate_signals [] 7).signal = Murphy.Direction.NO_DATA ∧
    (Murphy.generate_signals [] 7).confidence = 0 ∧
    (Murphy.generate_signals [] 7).entry_price = 0 ∧
    (Murphy.generate_signals [] 7).stop_loss = 0 ∧
    (Murphy.generate_signals [] 7).take_profit = 0 ∧
    (Murphy.generate_signals [] 7).risk_reward = 0 :=
  c2_short_series_no_data [] 7 (by decide)

/-- Claim C5 (code bug): the head-and-shoulders branch compares the
value-sorted `nlargest(3)` output positionally, asking the second-largest
value to exceed the largest — an unsatisfiable condition.  The detector
returns NONE on *every* frame, in particular on `c5df`, whose last 20 highs
form a textbook head-and-shoulders (the spec's condition holds there). -/
theorem c5_head_shoulders_detector_dead :
    Murphy.head_shoulders c5df = Murphy.PatternFlag.NONE ∧
    ∀ df : List Murphy.Row, Murphy.head_shoulders df = Murphy.PatternFlag.NONE := by
  suffices hall : ∀ df : List Murphy.Row,
      Murphy.head_shoulders df = Murphy.PatternFlag.NONE from ⟨hall c5df, hall⟩
  intro df
  unfold Murphy.head_shoulders
  split_ifs with hlen
  · rfl
  · have hs : List.Sorted Murphy.desc
        ((Murphy.recent_highs df).insertionSort Murphy.desc) :=
      List.sorted_insertionSort Murphy.desc (Murphy.recent_highs df)
    rcases hrec : (Murphy.recent_highs df).insertionSort Murphy.desc with
      _ | ⟨p0, _ | ⟨p1, _ | ⟨p2, rest⟩⟩⟩
    · simp [Murphy.nlargest3, hrec]
    · simp [Murphy.nlargest3, hrec]
    · simp [Murphy.nlargest3, hrec]
    · rw [hrec] at hs
      have h01 : p1 ≤ p0 := (List.sorted_cons.mp hs).1 p1 (by simp)
      simp only [Murphy.nlargest3, hrec, List.take_succ_cons, List.take_zero]
      rw [if_neg]
      intro hc
      exact absurd hc.1 (not_lt.mpr h01)

/-- Claim C6: the in-repo RSI never faults on a zero denominator — with the
rolling average loss 0 and average gain positive it is exactly 100, and with
both averages 0 it is NaN (undefined), following IEEE special-value
arithmetic. -/
theorem c6_rsi_zero_loss (closes : List ℚ) (g : ℚ)
    (hg : Bot.avg_gain closes = some g) (hl : Bot.avg_loss closes = some 0) :
    (0 < g → Bot.rsi_last closes = Bot.PFloat.fin 100) ∧
    (g = 0 → Bot.rsi_last closes = Bot.PFloat.nan) := by
  have hrl : Bot.rsi_last closes = Bot.rsiOf g 0 := by
    unfold Bot.rsi_last
    rw [hg, hl]
  constructor
  · intro hpos
    rw [hrl]
    simp [Bot.rsiOf, Bot.rs_div, hpos.ne', Bot.one_plus, Bot.hundred_div,
      Bot.hundred_sub]
  · intro h0
    subst h0
    rw [hrl]
    simp [Bot.rsiOf, Bot.rs_div, Bot.one_plus, Bot.hundred_div, Bot.hundred_sub]

/-- Witness for C6: a strictly rising 22-bar close series saturates the RSI
at exactly 100; a flat one yields NaN. -/
theorem c6_witness :
    Bot.rsi_last closes_up = Bot.PFloat.fin 100 ∧
    Bot.rsi_last closes_flat = Bot.PFloat.nan :=
  ⟨(c6_rsi_zero_loss closes_up 1
      (by norm_num [closes_up, Bot.avg_gain, Bot.gains, Bot.diff_list,
        Bot.roll_mean_last, Bot.RSI_PERIOD])
      (by norm_num [closes_up, Bot.avg_loss, Bot.losses, Bot.diff_list,
        Bot.roll_mean_last, Bot.RSI_PERIOD])).1 (by norm_num),
   (c6_rsi_zero_loss closes_flat 0
      (by norm_num [closes_flat, Bot.avg_gain, Bot.gains, Bot.diff_list,
        Bot.roll_mean_last, Bot.RSI_PERIOD, List.replicate])
      (by norm_num [closes_flat, Bot.avg_loss, Bot.losses, Bot.diff_list,
        Bot.roll_mean_last, Bot.RSI_PERIOD, List.replicate])).2 rfl⟩

/-- On a frame of at least 50 bars, analysis is the fusion body. -/
theorem generate_signals_of_long (df : List Murphy.Row) (now : ℚ)
    (h : ¬ df.length < 50) :
    Murphy.generate_signals df now = Murphy.build_signal df := by
  simp [Murphy.generate_signals, h]

/-- Full evaluation of the analysis of `dfBuy`: three bullish tags fire, the
decision is BUY with confidence 60, and the take-profit clamps to the entry
at the rolling resistance, driving the risk/reward to 0. -/
theorem dfBuy_eval : Murphy.generate_signals dfBuy 0 =
    { ts := 49, price := 100, signal := Murphy.Direction.BUY,
      strength := Murphy.Strength.MEDIUM, confidence := 60,
      entry_price := 100, stop_loss := 95, take_profit := 100,
      risk_reward := 0 } := by
  have hlat : Murphy.latest dfBuy = buy_row := rfl
  have hprev : Murphy.prev_row dfBuy = base_row := rfl
  have hbc : Murphy.bullish_count buy_row base_row = 3 := by decide
  have hsc : Murphy.bearish_count buy_row base_row = 0 := by decide
  have hfused : Murphy.fused buy_row base_row = (Murphy.Direction.BUY, 60) := by
    simp [Murphy.fused, hbc, hsc]
  have hsupp : Murphy.support dfBuy = 50 := by decide
  have hres : Murphy.resistance dfBuy = 100 := by decide
  have hlev : Murphy.risk_levels dfBuy Murphy.Direction.BUY = (100, 95, 100) := by
    simp only [Murphy.risk_levels, hlat]
    norm_num [hsupp, hres, buy_row]
  rw [generate_signals_of_long dfBuy 0 (by decide)]
  simp only [Murphy.build_signal, hlat, hprev, hfused]
  norm_num [hlev, buy_row, Murphy.strength_of, Murphy.risk_reward_of,
    Murphy.round2, Murphy.round_half_even]

/-- Claim C1: for every bar series of at least 50 bars, the fusion step
decides by evidence counting — bullish tags strictly ahead and at least 2
gives BUY with confidence min(bullish × 20, 100), symmetrically for SELL,
and every other case (equal counts included) gives HOLD with confidence
exactly 50. -/
theorem c1_fusion_evidence_counting (df : List Murphy.Row) (now : ℚ)
    (h : 50 ≤ df.length) :
    ((Murphy.bearish_count (Murphy.latest df) (Murphy.prev_row df) <
        Murphy.bullish_count (Murphy.latest df) (Murphy.prev_row df) ∧
      2 ≤ Murphy.bullish_count (Murphy.latest df) (Murphy.prev_row df)) →
      (Murphy.generate_signals df now).signal = Murphy.Direction.BUY ∧
      (Murphy.generate_signals df now).confidence =
        min (Murphy.bullish_count (Murphy.latest df) (Murphy.prev_row df) * 20) 100) ∧
    ((Murphy.bullish_count (Murphy.latest df) (Murphy.prev_row df) <
        Murphy.bearish_count (Murphy.latest df) (Murphy.prev_row df) ∧
      2 ≤ Murphy.bearish_count (Murphy.latest df) (Murphy.prev_row df)) →
      (Murphy.generate_signals df now).signal = Murphy.Direction.SELL ∧
      (Murphy.generate_signals df now).confidence =
        min (Murphy.bearish_count (Murphy.latest df) (Murphy.prev_row df) * 20) 100) ∧
    ((¬ (Murphy.bearish_count (Murphy.latest df) (Murphy.prev_row df) <
          Murphy.bullish_count (Murphy.latest df) (Murphy.prev_row df) ∧
        2 ≤ Murphy.bullish_count (Murphy.latest df) (Murphy.prev_row df)) ∧
      ¬ (Murphy.bullish_count (Murphy.latest df) (Murphy.prev_row df) <
          Murphy.bearish_count (Murphy.latest df) (Murphy.prev_row df) ∧
        2 ≤ Murphy.bearish_count (Murphy.latest df) (Murphy.prev_row df))) →
      (Murphy.generate_signals df now).signal = Murphy.Direction.HOLD ∧
      (Murphy.generate_signals df now).confidence = 50) := by
  have hn : ¬ df.length < 50 := by omega
  rw [generate_signals_of_long df now hn]
  simp only [Murphy.build_signal, Murphy.fused]
  by_cases h1 : Murphy.bearish_count (Murphy.latest df) (Murphy.prev_row df) <
      Murphy.bullish_count (Murphy.latest df) (Murphy.prev_row df) ∧
      2 ≤ Murphy.bullish_count (Murphy.latest df) (Murphy.prev_row df)
  · simp only [if_pos h1]
    exact ⟨fun _ => by simp, fun h2 => absurd h2 (by omega),
      fun h3 => absurd h1 h3.1⟩
  · by_cases h2 : Murphy.bullish_count (Murphy.latest df) (Murphy.prev_row df) <
        Murphy.bearish_count (Murphy.latest df) (Murphy.prev_row df) ∧
        2 ≤ Murphy.bearish_count (Murphy.latest df) (Murphy.prev_row df)
    · simp only [if_neg h1, if_pos h2]
      exact ⟨fun hx => absurd hx h1, fun _ => by simp,
        fun h3 => absurd h2 h3.2⟩
    · simp only [if_neg h1, if_neg h2]
      exact ⟨fun hx => absurd hx h1, fun hx => absurd hx h2,
        fun _ => by simp⟩

/-- Witness for C1: on `dfBuy` the counts are 3 bullish / 0 bearish and the
decision is BUY with confidence 60 = min(3 × 20, 100). -/
theorem c1_witness :
    (Murphy.generate_signals dfBuy 0).signal = Murphy.Direction.BUY ∧
    (Murphy.generate_signals dfBuy 0).confidence = 60 := by
  have h := (c1_fusion_evidence_counting dfBuy 0 (by decide)).1
    ⟨by decide, by decide⟩
  refine ⟨h.1, ?_⟩
  rw [h.2]
  decide

/-- Claim C3 counterexample: the analysis of `dfBuy` is a BUY whose
risk/reward is 0 even though the entry (100) differs from the stop-loss
(95) — the reward is 0 because the take-profit clamps to the entry at the
rolling resistance.  This refutes "risk/reward = 0 exactly when entry =
stop-loss". -/
theorem c3_counterexample :
    (Murphy.generate_signals dfBuy 0).risk_reward = 0 ∧
    (Murphy.generate_signals dfBuy 0).entry_price ≠
      (Murphy.generate_signals dfBuy 0).stop_loss ∧
    (Murphy.generate_signals dfBuy 0).signal = Murphy.Direction.BUY := by
  rw [dfBuy_eval]
  norm_num

/-- Claim C3 (amended): risk/reward is always ≥ 0, and entry = stop-loss
implies risk/reward = 0 (the divide-by-zero guard) — but not conversely. -/
theorem c3_risk_reward_nonneg (df : List Murphy.Row) (now : ℚ) :
    0 ≤ (Murphy.generate_signals df now).risk_reward ∧
    ((Murphy.generate_signals df now).entry_price =
        (Murphy.generate_signals df now).stop_loss →
      (Murphy.generate_signals df now).risk_reward = 0) := by
  by_cases h : df.length < 50
  · simp [Murphy.generate_signals, h, Murphy.empty_signal]
  · rw [generate_signals_of_long df now h]
    simp only [Murphy.build_signal]
    exact ⟨risk_reward_of_nonneg _ _ _, fun he => risk_reward_of_entry_eq_stop _ _ _ he⟩

/-- Witness for C3 (amended) at the empty frame, where entry = stop-loss = 0. -/
theorem c3_witness :
    0 ≤ (Murphy.generate_signals [] 2).risk_reward ∧
    (Murphy.generate_signals [] 2).risk_reward = 0 :=
  ⟨(c3_risk_reward_nonneg [] 2).1, (c3_risk_reward_nonneg [] 2).2 rfl⟩

/-- The fusion decision is always BUY, SELL or HOLD. -/
theorem fused_fst (l p : Murphy.Row) :
    (Murphy.fused l p).1 = Murphy.Direction.BUY ∨
    (Murphy.fused l p).1 = Murphy.Direction.SELL ∨
    (Murphy.fused l p).1 = Murphy.Direction.HOLD := by
  simp only [Murphy.fused]
  split_ifs <;> simp

/-- Claim C4: a STRONG_SELL bar of the long-horizon engine satisfies one of
the three strong-sell conditions, and at the same bar at least one
regular-SELL condition family (confirmed bearish crossover, RSI overbought,
high-volume sell-off, or bearish divergence) also holds. -/
theorem c4_strong_sell_implications (r : Bot.BotRow)
    (h : Bot.enhanced_signal r = Murphy.Direction.STRONG_SELL) :
    (Bot.strong_sell_multiple r || Bot.strong_sell_extreme r ||
      Bot.strong_sell_crash r) = true ∧
    (Bot.sma_cross_confirmed r || Bot.sell_rsi_overbought r ||
      Bot.sell_high_volume r || Bot.sell_divergence r) = true := by
  have hs : Bot.strong_sell r = true := by
    by_contra hns
    rw [Bool.not_eq_true] at hns
    unfold Bot.enhanced_signal at h
    rw [hns] at h
    simp only [Bool.false_eq_true, if_false] at h
    split_ifs at h
  refine ⟨hs, ?_⟩
  have hcases := hs
  simp only [Bot.strong_sell, Bool.or_eq_true] at hcases
  rcases hcases with (hm | he) | hc
  · simp only [Bot.strong_sell_multiple, Bool.and_eq_true] at hm
    simp [hm.1]
  · simp only [Bot.strong_sell_extreme, Bool.and_eq_true] at he
    have hob : Bot.sell_rsi_overbought r = true := by
      unfold Bot.sell_rsi_overbought
      exact ogt_thr_mono r.rsi he.1
        (by norm_num [Bot.RSI_OVERBOUGHT_THRESHOLD])
    simp [hob]
  · simp only [Bot.strong_sell_crash, Bool.and_eq_true] at hc
    have hhv : Bot.sell_high_volume r = true := by
      unfold Bot.sell_high_volume
      rw [Bool.and_eq_true]
      exact ⟨hc.2, olt_thr_mono r.pct_change hc.1 (by norm_num)⟩
    simp [hhv]

/-- Witness for C4: a −12% bar on 4× baseline volume is STRONG_SELL via the
crash condition, and the high-volume regular-SELL family also fires. -/
theorem c4_witness :
    (Bot.strong_sell_multiple c4row || Bot.strong_sell_extreme c4row ||
      Bot.strong_sell_crash c4row) = true ∧
    (Bot.sma_cross_confirmed c4row || Bot.sell_rsi_overbought c4row ||
      Bot.sell_high_volume c4row || Bot.sell_divergence c4row) = true :=
  c4_strong_sell_implications c4row (by decide)

/-- Claim C7 (amended): the short-horizon engine's risk calculator follows
the claimed support/resistance formulas (stop fraction 5%, profit fraction
10%) with BUY/SELL set as claimed and HOLD/NO_DATA all zero; the
long-horizon validator instead computes stop-loss = close × (1 − 0.15) and
take-profit = close × (1 + 0.25) for every direction. -/
theorem c7_risk_levels (df : List Murphy.Row) (now : ℚ) (r : Bot.VRow) :
    ((Murphy.generate_signals df now).signal = Murphy.Direction.BUY →
      (Murphy.generate_signals df now).entry_price = (Murphy.latest df).close ∧
      (Murphy.generate_signals df now).stop_loss =
        max (Murphy.support df) ((Murphy.latest df).close * (95/100)) ∧
      (Murphy.generate_signals df now).take_profit =
        min (Murphy.resistance df) ((Murphy.latest df).close * (110/100))) ∧
    ((Murphy.generate_signals df now).signal = Murphy.Direction.SELL ∨
        (Murphy.generate_signals df now).signal = Murphy.Direction.STRONG_SELL →
      (Murphy.generate_signals df now).entry_price = (Murphy.latest df).close ∧
      (Murphy.generate_signals df now).stop_loss =
        min (Murphy.resistance df) ((Murphy.latest df).close * (105/100)) ∧
      (Murphy.generate_signals df now).take_profit =
        max (Murphy.support df) ((Murphy.latest df).close * (90/100))) ∧
    ((Murphy.generate_signals df now).signal = Murphy.Direction.HOLD ∨
        (Murphy.generate_signals df now).signal = Murphy.Direction.NO_DATA →
      (Murphy.generate_signals df now).entry_price = 0 ∧
      (Murphy.generate_signals df now).stop_loss = 0 ∧
      (Murphy.generate_signals df now).take_profit = 0) ∧
    (Bot.validate_signal r).stop_loss_price =
      Murphy.round2 (r.close * (1 - Bot.STOP_LOSS_PERCENTAGE)) ∧
    (Bot.validate_signal r).take_profit_price =
      Murphy.round2 (r.close * (1 + Bot.TAKE_PROFIT_PERCENTAGE)) := by
  refine ⟨?_, ?_, ?_, rfl, rfl⟩ <;>
    by_cases h : df.length < 50
  · intro hb
    have he : Murphy.generate_signals df now = Murphy.empty_signal now := by
      simp [Murphy.generate_signals, h]
    rw [he] at hb
    exact Murphy.Direction.noConfusion hb
  · rw [generate_signals_of_long df now h]
    simp only [Murphy.build_signal]
    rcases fused_fst (Murphy.latest df) (Murphy.prev_row df) with hD | hD | hD <;>
      rw [hD] <;> simp [Murphy.risk_levels]
  · intro hb
    have he : Murphy.generate_signals df now = Murphy.empty_signal now := by
      simp [Murphy.generate_signals, h]
    rw [he] at hb
    rcases hb with hb | hb <;> exact Murphy.Direction.noConfusion hb
  · rw [generate_signals_of_long df now h]
    simp only [Murphy.build_signal]
    rcases fused_fst (Murphy.latest df) (Murphy.prev_row df) with hD | hD | hD <;>
      rw [hD] <;> simp [Murphy.risk_levels]
  · have he : Murphy.generate_signals df now = Murphy.empty_signal now := by
      simp [Murphy.generate_signals, h]
    rw [he]
    intro hb
    simp [Murphy.empty_signal]
  · rw [generate_signals_of_long df now h]
    simp only [Murphy.build_signal]
    rcases fused_fst (Murphy.latest df) (Murphy.prev_row df) with hD | hD | hD <;>
      rw [hD] <;> simp [Murphy.risk_levels]

/-- Witness for C7: the BUY formulas hold on the concrete frame `dfBuy`. -/
theorem c7_witness :
    (Murphy.generate_signals dfBuy 0).entry_price = (Murphy.latest dfBuy).close ∧
    (Murphy.generate_signals dfBuy 0).stop_loss =
      max (Murphy.support dfBuy) ((Murphy.latest dfBuy).close * (95/100)) ∧
    (Murphy.generate_signals dfBuy 0).take_profit =
      min (Murphy.resistance dfBuy) ((Murphy.latest dfBuy).close * (110/100)) :=
  (c7_risk_levels dfBuy 0 c8row).1 (by rw [dfBuy_eval])

/-- Claim C7 counterexample: the long-horizon validator
(`trading_bot.validate_signal`) assigns nonzero stop-loss (85) and
take-profit (125) to a HOLD signal at close 100, contradicting "for HOLD …
entry, stop-loss and take-profit are all zero". -/
theorem c7_counterexample :
    c7row.signal = Murphy.Direction.HOLD ∧
    (Bot.validate_signal c7row).stop_loss_price = 85 ∧
    (Bot.validate_signal c7row).stop_loss_price ≠ 0 ∧
    (Bot.validate_signal c7row).take_profit_price = 125 := by
  have hsl : (Bot.validate_signal c7row).stop_loss_price = 85 := by
    norm_num [Bot.validate_signal, Murphy.round2, Murphy.round_half_even,
      Bot.STOP_LOSS_PERCENTAGE, c7row]
  have htp : (Bot.validate_signal c7row).take_profit_price = 125 := by
    norm_num [Bot.validate_signal, Murphy.round2, Murphy.round_half_even,
      Bot.TAKE_PROFIT_PERCENTAGE, c7row]
  exact ⟨rfl, hsl, by rw [hsl]; norm_num, htp⟩

/-- Claim C9 counterexample: on a short frame the NO_DATA signal's timestamp
is the wall clock of the call, so two calls at different times disagree on
the timestamp field — analysis is not bit-identical across calls. -/
theorem c9_counterexample :
    Murphy.generate_signals [] 0 ≠ Murphy.generate_signals [] 1 := by
  decide

/-- Claim C9 (amended): two analysis calls on the same frame agree on every
field except possibly the timestamp, and on frames of at least 50 bars they
agree on the timestamp as well (the result is independent of the wall
clock). -/
theorem c9_clock_independence (df : List Murphy.Row) (t1 t2 : ℚ) :
    Murphy.strip_ts (Murphy.generate_signals df t1) =
      Murphy.strip_ts (Murphy.generate_signals df t2) ∧
    (50 ≤ df.length →
      Murphy.generate_signals df t1 = Murphy.generate_signals df t2) := by
  by_cases h : df.length < 50
  · refine ⟨?_, fun h50 => absurd h (by omega)⟩
    simp [Murphy.generate_signals, h, Murphy.strip_ts, Murphy.empty_signal]
  · rw [generate_signals_of_long df t1 h, generate_signals_of_long df t2 h]
    exact ⟨rfl, fun _ => rfl⟩

/-- Witness for C9: on the 50-bar frame `dfBuy` the analysis is identical
for two different call times. -/
theorem c9_witness :
    Murphy.generate_signals dfBuy 3 = Murphy.generate_signals dfBuy 7 :=
  (c9_clock_independence dfBuy 3 7).2 (by decide)

/-- Claim C10: on a frame of at least 50 bars whose latest bar has positive,
well-formed OHLC prices (low ≤ close ≤ high), the risk levels are ordered
around the entry: BUY has stop ≤ entry ≤ take-profit, SELL has take-profit ≤
entry ≤ stop, because the rolling support cannot exceed the latest close and
the rolling resistance cannot be below it. -/
theorem c10_risk_level_ordering (df : List Murphy.Row) (now : ℚ)
    (h : 50 ≤ df.length)
    (hpos : 0 < (Murphy.latest df).close)
    (hlc : (Murphy.latest df).low ≤ (Murphy.latest df).close)
    (hch : (Murphy.latest df).close ≤ (Murphy.latest df).high) :
    ((Murphy.generate_signals df now).signal = Murphy.Direction.BUY →
      (Murphy.generate_signals df now).stop_loss ≤
        (Murphy.generate_signals df now).entry_price ∧
      (Murphy.generate_signals df now).entry_price ≤
        (Murphy.generate_signals df now).take_profit) ∧
    ((Murphy.generate_signals df now).signal = Murphy.Direction.SELL →
      (Murphy.generate_signals df now).take_profit ≤
        (Murphy.generate_signals df now).entry_price ∧
      (Murphy.generate_signals df now).entry_price ≤
        (Murphy.generate_signals df now).stop_loss) := by
  have hne : df ≠ [] := by
    intro he
    rw [he] at h
    simp at h
  have hsup : Murphy.support df ≤ (Murphy.latest df).close :=
    le_trans (support_le_latest_low df hne) hlc
  have hres : (Murphy.latest df).close ≤ Murphy.resistance df :=
    le_trans hch (latest_high_le_resistance df hne)
  have hn : ¬ df.length < 50 := by omega
  rw [generate_signals_of_long df now hn]
  simp only [Murphy.build_signal]
  rcases fused_fst (Murphy.latest df) (Murphy.prev_row df) with hD | hD | hD <;>
    rw [hD] <;> simp [Murphy.risk_levels, max_le_iff, le_min_iff]
  · exact ⟨⟨hsup, by linarith⟩, hres, by linarith⟩
  · exact ⟨⟨hsup, by linarith⟩, hres, by linarith⟩

/-- Witness for C10: the BUY ordering holds on `dfBuy` (95 ≤ 100 ≤ 100). -/
theorem c10_witness :
    (Murphy.generate_signals dfBuy 0).stop_loss ≤
      (Murphy.generate_signals dfBuy 0).entry_price ∧
    (Murphy.generate_signals dfBuy 0).entry_price ≤
      (Murphy.generate_signals dfBuy 0).take_profit :=
  (c10_risk_level_ordering dfBuy 0 (by decide) (by decide) (by decide)
    (by decide)).1 (by rw [dfBuy_eval])

/-- Claim C8: the validator's validity flag is the volume gate AND the
defined-SMA gate; the strength label follows the ordered chain VERY_STRONG
(direction STRONG_SELL) / STRONG (valid and |price change| ≥ 3%) / MODERATE
(valid) / WEAK (invalid); and the NO_DATA signal carries strength NONE. -/
theorem c8_validator_strength (r : Bot.VRow) (now : ℚ) :
    ((Bot.validate_signal r).valid = true ↔
      (Bot.MIN_VOLUME_THRESHOLD ≤ r.volume ∧ r.sma_short.isSome = true ∧
        r.sma_long.isSome = true)) ∧
    ((Bot.validate_signal r).strength =
      if r.signal = Murphy.Direction.STRONG_SELL then Murphy.Strength.VERY_STRONG
      else if (Bot.validate_signal r).valid = true ∧
          Bot.MIN_PRICE_CHANGE * 100 ≤ |(Bot.validate_signal r).price_change| then
        Murphy.Strength.STRONG
      else if (Bot.validate_signal r).valid = true then Murphy.Strength.MODERATE
      else Murphy.Strength.WEAK) ∧
    (Murphy.empty_signal now).strength = Murphy.Strength.NONE := by
  refine ⟨?_, ?_, rfl⟩
  · simp [Bot.validate_signal, Bool.and_eq_true, decide_eq_true_eq, and_assoc]
  · simp only [Bot.validate_signal]
    split_ifs <;> simp_all [Bool.and_eq_true, decide_eq_true_eq]
